import Mathlib

/-!
Shallow embedding of the text/structure codecs of `converters.py` from the
ddr-iaconvert repository, together with theorems checking the frozen claims
about that module.

Modelling conventions, used throughout:

* Python `str` is modelled by `String`; character-level work happens on
  `String.data : List Char` with structurally recursive functions so that
  every definition evaluates inside the kernel.
* Python separators are single-character strings at every call site of the
  functions modelled here, so separator parameters are modelled as `Char`.
* Python `dict` is modelled by an insertion-ordered association list with
  unique keys; assignment (`d[k] = v`) replaces in place or appends.
* A Python function that can raise an uncaught exception is modelled with
  `Except String`; the string payload names the kind of exception.
* The regular-expression word class `\w` and digit class `\d` are modelled
  over ASCII (`Char.isAlphanum`, `Char.isDigit`); the inputs the claims are
  about are ASCII.
* A few punctuation characters are bound once as named `Char` constants
  via `Char.ofNat` and referred to by name: 123 is the opening curly brace,
  125 the closing curly brace, 39 the single quote, 34 the double quote,
  96 the backtick, 92 the backslash.
-/

def lbraceChar : Char := Char.ofNat 123

def rbraceChar : Char := Char.ofNat 125

def squoteChar : Char := Char.ofNat 39

def dquoteChar : Char := Char.ofNat 34

def btickChar : Char := Char.ofNat 96

def bslashChar : Char := Char.ofNat 92

/-- Python `str.strip` whitespace set: space, tab, newline, carriage return,
vertical tab, form feed. -/
def isPySpace (c : Char) : Bool :=
  c = ' ' || c = '\t' || c = '\n' || c = '\r' || c = '\x0b' || c = '\x0c'

/-- Strip `isPySpace` characters from both ends of a character list. -/
def stripChars (l : List Char) : List Char :=
  ((l.dropWhile isPySpace).reverse.dropWhile isPySpace).reverse

/-- Python `str.strip()`. -/
def pyStrip (s : String) : String := String.mk (stripChars s.data)

/-- Replace every `\r\n` pair by `\n` (first `replace` in `normalize_string`). -/
def crlfToLf : List Char → List Char
  | [] => []
  | '\r' :: '\n' :: rest => '\n' :: crlfToLf rest
  | c :: rest => c :: crlfToLf rest

/-- Replace every remaining `\r` by `\n` (second `replace` in `normalize_string`). -/
def crToLf (l : List Char) : List Char :=
  l.map (fun c => if c = '\r' then '\n' else c)

/-- Source `normalize_string` on string input: collapse CRLF and CR to LF,
then strip outer whitespace.  (The `None` and non-string branches of the
Python function do not apply to string input.) -/
def normalize_string (text : String) : String :=
  String.mk (stripChars (crToLf (crlfToLf text.data)))

/-- Python `text.replace(chr(10), chr(32))`: newline to space. -/
def newlineToSpace (text : String) : String :=
  String.mk (text.data.map (fun c => if c = '\n' then ' ' else c))

/-- Python `sep in text` for a one-character separator. -/
def strContainsChar (text : String) (c : Char) : Bool :=
  text.data.contains c

/-- Python `text.split(sep)` (all occurrences, keeps empty pieces,
`[[]]` on the empty string) at the character-list level. -/
def splitChar (sep : Char) : List Char → List (List Char)
  | [] => [[]]
  | c :: rest =>
    match splitChar sep rest with
    | [] => [[c]]
    | y :: ys => if c = sep then [] :: y :: ys else (c :: y) :: ys

/-- Python `text.split(sep)` returning strings. -/
def pySplit (text : String) (sep : Char) : List String :=
  (splitChar sep text.data).map String.mk

/-- Split at the first occurrence of `sep`, if any. -/
def splitOnceChar (sep : Char) : List Char → Option (List Char × List Char)
  | [] => Option.none
  | c :: rest =>
    if c = sep then Option.some ([], rest)
    else
      match splitOnceChar sep rest with
      | Option.some (a, b) => Option.some (c :: a, b)
      | Option.none => Option.none

/-- Python `text.split(sep, 1)`: one or two pieces. -/
def pySplit1 (text : String) (sep : Char) : List String :=
  match splitOnceChar sep text.data with
  | Option.some (a, b) => [String.mk a, String.mk b]
  | Option.none => [text]

/-- Python `sep.join(items)`. -/
def joinSep (sep : String) : List String → String
  | [] => ""
  | [x] => x
  | x :: y :: rest => x ++ sep ++ joinSep sep (y :: rest)

/-- Nonempty all-digits test, Python `str.isdigit` over ASCII. -/
def strIsDigits (s : String) : Bool :=
  !(s.data.isEmpty) && s.data.all Char.isDigit

/-- Decimal digits to a natural number, Python `int` on an all-digits string. -/
def digitsToNat (l : List Char) : Nat :=
  l.foldl (fun acc c => acc * 10 + (c.toNat - 48)) 0

/-- Insertion-ordered dict assignment `d[k] = v`: replace in place or append. -/
def dictSet {β : Type} : List (String × β) → String → β → List (String × β)
  | [], k, v => [(k, v)]
  | (k', v') :: rest, k, v =>
    if k' = k then (k', v) :: rest else (k', v') :: dictSet rest k v

/-- Dict lookup `d.get(k)` as an `Option`. -/
def dictGet {β : Type} (d : List (String × β)) (k : String) : Option β :=
  match d.find? (fun p => p.1 = k) with
  | Option.some p => Option.some p.2
  | Option.none => Option.none

/-- Remove the entry for `k`, if present. -/
def dictRemove {β : Type} : List (String × β) → String → List (String × β)
  | [], _ => []
  | (k', v') :: rest, k =>
    if k' = k then rest else (k', v') :: dictRemove rest k

/-- Python `d.pop(k)`: the value together with the remaining dict. -/
def dictPop {β : Type} : List (String × β) → String → Option (β × List (String × β))
  | [], _ => Option.none
  | (k', v') :: rest, k =>
    if k' = k then Option.some (v', rest)
    else
      match dictPop rest k with
      | Option.some (r, d) => Option.some (r, (k', v') :: d)
      | Option.none => Option.none

/-- Build a dict from key/value pairs in order (a Python dict comprehension). -/
def dictFromPairs {β : Type} (pairs : List (String × β)) : List (String × β) :=
  pairs.foldl (fun acc p => dictSet acc p.1 p.2) []

/-- String-valued record, the shape handled by the single-record grammars. -/
abbrev SDict : Type := List (String × String)

/-! ### The bracket-id regular expression

`TEXT_BRACKETID_REGEX` is `(?P<term>[\w\d -:()_,`'"]+)\s\[(?P<id>\d+)\]`.
Inside the character class, the run from the space to the colon is a
character range (0x20 through 0x3A), which already covers the parenthesis,
comma, quote and hyphen characters listed; the extra members are the word
characters, the underscore and the backtick.  `re.search` finds the
leftmost starting position admitting a match; at that position the `+` is
greedy with backtracking. -/

def isTermChar (c : Char) : Bool :=
  c.isAlphanum || c = '_' || c = btickChar || ((' ' ≤ c) && (c ≤ ':'))

/-- Match the tail `\s\[(\d+)\]` of the bracket-id pattern, returning the
digit group. -/
def bracketTail (l : List Char) : Option (List Char) :=
  match l with
  | c :: rest =>
    if isPySpace c then
      match rest with
      | c2 :: rest2 =>
        if c2 = '[' then
          let ds := rest2.takeWhile Char.isDigit
          if ds.isEmpty then Option.none
          else
            match rest2.drop ds.length with
            | c3 :: _ => if c3 = ']' then Option.some ds else Option.none
            | [] => Option.none
        else Option.none
      | [] => Option.none
    else Option.none
  | [] => Option.none

/-- Greedy backtracking over the term group: `termRev` is the reversed
candidate term (initially the maximal run of term characters); try the
longest term first and move characters back to the tail until the rest of
the pattern matches. -/
def bracketBacktrack : List Char → List Char → Option (String × String)
  | [], _ => Option.none
  | c :: termRev2, rest =>
    match bracketTail rest with
    | Option.some ds => Option.some (String.mk (c :: termRev2).reverse, String.mk ds)
    | Option.none => bracketBacktrack termRev2 (c :: rest)

/-- Try to match the bracket-id pattern starting exactly at the head. -/
def bracketMatchAt (l : List Char) : Option (String × String) :=
  let run := l.takeWhile isTermChar
  bracketBacktrack run.reverse (l.drop run.length)

/-- `re.search` for the bracket-id pattern: leftmost start position wins. -/
def bracketSearch : List Char → Option (String × String)
  | [] => Option.none
  | c :: rest =>
    match bracketMatchAt (c :: rest) with
    | Option.some m => Option.some m
    | Option.none => bracketSearch rest

/-- Source `_is_text_bracketid`: a match object (term and id groups) when
the search succeeds and the id group is all digits, nothing otherwise. -/
def is_text_bracketid (text : String) : Option (String × String) :=
  if text = "" then Option.none
  else
    match bracketSearch text.data with
    | Option.some (t, i) =>
      if strIsDigits i then Option.some (t, i) else Option.none
    | Option.none => Option.none

/-! ### Single-record grammars and their dispatcher -/

/-- Source `_is_text_labels`: both separators occur in the text. -/
def is_text_labels (text : String) (sep0 sep1 : Char) : Bool :=
  strContainsChar text sep0 && strContainsChar text sep1

/-- Source `_is_text_nolabels`: only the first separator occurs. -/
def is_text_nolabels (text : String) (sep0 sep1 : Char) : Bool :=
  strContainsChar text sep0 && !(strContainsChar text sep1)

/-- Item loop of `textlabels_to_dict`: split each nonempty `sep1` item once
on `sep0` into key and value; an item without `sep0` raises a ValueError
(tuple unpacking). -/
def textlabels_go (sep0 : Char) : List (List Char) → SDict → Except String SDict
  | [], acc => Except.ok acc
  | item :: rest, acc =>
    if item.isEmpty then textlabels_go sep0 rest acc
    else
      match splitOnceChar sep0 item with
      | Option.some (k, v) =>
        textlabels_go sep0 rest (dictSet acc (String.mk k) (String.mk v))
      | Option.none => Except.error ("ValueError not enough values to unpack")

/-- Source `textlabels_to_dict`.  The `keys` parameter is accepted and
ignored, exactly as in the source. -/
def textlabels_to_dict (text : String) (keys : List String) (sep0 sep1 : Char) :
    Except String SDict :=
  if text = "" then Except.ok []
  else textlabels_go sep0 (splitChar sep1 text.data) []

/-- Source `textnolabels_to_dict`: requires the separator, splits once, and
requires the value count to equal the key count. -/
def textnolabels_to_dict (text : String) (keys : List String) (separator : Char) :
    Except String SDict :=
  if text = "" then Except.ok []
  else if strContainsChar text separator = false then
    Except.error ("Exception text does not contain separator")
  else if (pySplit1 text separator).length ≠ keys.length then
    Except.error ("Exception text contains more values than keys")
  else Except.ok (dictFromPairs (keys.zip (pySplit1 text separator)))

/-- Source `textbracketid_to_dict`: normalize, use the supplied match object
or search afresh, and zip the two groups against the keys (empty dict when
the key count is not two or nothing matches). -/
def textbracketid_to_dict (text : String) (keys : List String)
    (m? : Option (String × String)) : SDict :=
  let t := newlineToSpace (normalize_string text)
  if t = "" then []
  else
    match (match m? with
           | Option.some m => Option.some m
           | Option.none => bracketSearch t.data) with
    | Option.some (term, idv) =>
      if keys.length = 2 then dictFromPairs (keys.zip [term, idv]) else []
    | Option.none => []

/-- Input to `dict_to_textbracketid`, which accepts a preformatted string or
a record. -/
inductive DData : Type where
  | str : String → DData
  | dict : SDict → DData

/-- Source `dict_to_textbracketid`: string input passes through; dict input
requires exactly two keys and an `id` field, pops `id`, and formats the
first remaining value with the `term [id]` template. -/
def dict_to_textbracketid : DData → List String → Except String String
  | DData.str s, _ => Except.ok s
  | DData.dict data, keys =>
    if keys.length ≠ 2 then Except.error ("Exception too many keys")
    else
      match dictPop data ("id") with
      | Option.none => Except.error ("Exception no id field in data")
      | Option.some (idv, rest) =>
        match rest with
        | [] => Except.error ("IndexError")
        | (_, term) :: _ => Except.ok (term ++ (" [") ++ idv ++ ("]"))

/-- Source `dict_to_textnolabels`: the values of `keys` in order, joined
with the separator; a missing key raises KeyError. -/
def dict_to_textnolabels (data : SDict) (keys : List String) (separator : String) :
    Except String String :=
  match keys.mapM (fun k =>
      match dictGet data k with
      | Option.some v => Except.ok v
      | Option.none => (Except.error ("KeyError") : Except String String)) with
  | Except.ok vs => Except.ok (joinSep separator vs)
  | Except.error e => Except.error e

/-- Source `dict_to_textlabels`: `key sep0 value` items joined with `sep1`. -/
def dict_to_textlabels (data : SDict) (keys : List String) (sep0 sep1 : String) :
    Except String String :=
  match keys.mapM (fun k =>
      match dictGet data k with
      | Option.some v => Except.ok (k ++ sep0 ++ v)
      | Option.none => (Except.error ("KeyError") : Except String String)) with
  | Except.ok vs => Except.ok (joinSep sep1 vs)
  | Except.error e => Except.error e

/-- Final loop of `text_to_dict`: strip every (string) value. -/
def stripVals (d : SDict) : SDict :=
  d.map (fun p => (p.1, pyStrip p.2))

/-- Dispatch body of `text_to_dict` on the already-normalized text. -/
def text_to_dict_n (t : String) (keys : List String) : Except String SDict :=
  if t = "" then Except.ok []
  else
    Except.map stripVals
      (match is_text_bracketid t with
       | Option.some m =>
         Except.ok (textbracketid_to_dict t [("term"), ("id")] (Option.some m))
       | Option.none =>
         if is_text_labels t ':' '|' then textlabels_to_dict t keys ':' '|'
         else if is_text_nolabels t ':' '|' then textnolabels_to_dict t keys ':'
         else Except.error ("Exception text_to_dict could not parse text"))

/-- Source `text_to_dict`: normalize, map newlines to spaces, then dispatch
on the three grammar heuristics in priority order, stripping string values
of the winning parse. -/
def text_to_dict (text : String) (keys : List String) : Except String SDict :=
  text_to_dict_n (newlineToSpace (normalize_string text)) keys

/-- Source `dict_to_text`: explicit style dispatch; an unknown style falls
off the end of the `elif` chain and returns `None`. -/
def dict_to_text (data : SDict) (keys : List String) (style : String)
    (nolabelsep : String) (sep0 sep1 : String) : Except String (Option String) :=
  if style = "bracketid" then
    Except.map Option.some (dict_to_textbracketid (DData.dict data) keys)
  else if style = "nolabels" then
    Except.map Option.some (dict_to_textnolabels data keys nolabelsep)
  else if style = "labels" then
    Except.map Option.some (dict_to_textlabels data keys sep0 sep1)
  else Except.ok Option.none

/-! ### Python values, JSON, and the dirty-JSON repair

`text_to_rolepeople` mixes text grammar with `json.loads`; the values the
codec handles are modelled by `PyVal`. -/

inductive PyVal : Type where
  | none : PyVal
  | bool : Bool → PyVal
  | int : Int → PyVal
  | float : String → PyVal
  | str : String → PyVal
  | list : List PyVal → PyVal
  | dict : List (String × PyVal) → PyVal

/-- Python truthiness of the values `PyVal` covers.  For a float literal the
model checks for a nonzero mantissa digit (ignoring exponent underflow,
which no claim exercises). -/
def pyTruthy : PyVal → Bool
  | PyVal.none => false
  | PyVal.bool b => b
  | PyVal.int n => !(n = 0)
  | PyVal.float lit =>
    (lit.data.takeWhile (fun c => !(c = 'e') && !(c = 'E'))).any
      (fun c => c.isDigit && !(c = '0'))
  | PyVal.str s => !(s = "")
  | PyVal.list l => !(l.isEmpty)
  | PyVal.dict d => !(d.isEmpty)

/-- Python `item.get(k)`: the stored value, or `None` when absent. -/
def pyGet (d : List (String × PyVal)) (k : String) : PyVal :=
  match dictGet d k with
  | Option.some v => v
  | Option.none => PyVal.none

/-! A model of the strict JSON reader (`json.loads` / `simplejson.loads`):
recursive-descent with fuel bounded by the input length (every fuel step
consumes at least one character, so the fuel never runs out on the initial
budget).  The extension literals NaN and Infinity are not modelled; no
claim depends on them. -/

def jsonWsChar (c : Char) : Bool :=
  c = ' ' || c = '\t' || c = '\n' || c = '\r'

def skipWs (l : List Char) : List Char := l.dropWhile jsonWsChar

def hexVal (c : Char) : Option Nat :=
  if c.isDigit then Option.some (c.toNat - 48)
  else if ('a' ≤ c) && (c ≤ 'f') then Option.some (c.toNat - 87)
  else if ('A' ≤ c) && (c ≤ 'F') then Option.some (c.toNat - 55)
  else Option.none

def jsonEscape (e : Char) : Option Char :=
  if e = dquoteChar then Option.some dquoteChar
  else if e = bslashChar then Option.some bslashChar
  else if e = '/' then Option.some '/'
  else if e = 'b' then Option.some (Char.ofNat 8)
  else if e = 'f' then Option.some (Char.ofNat 12)
  else if e = 'n' then Option.some '\n'
  else if e = 'r' then Option.some '\r'
  else if e = 't' then Option.some '\t'
  else Option.none

/-- Body of a JSON string after the opening quote: the decoded characters
and the rest of the input after the closing quote. -/
def parseJStr : List Char → Option (List Char × List Char)
  | [] => Option.none
  | c :: rest =>
    if c = dquoteChar then Option.some ([], rest)
    else if c = bslashChar then
      match rest with
      | [] => Option.none
      | e :: rest2 =>
        if e = 'u' then
          match rest2 with
          | h1 :: h2 :: h3 :: h4 :: rest3 =>
            match hexVal h1, hexVal h2, hexVal h3, hexVal h4 with
            | Option.some a, Option.some b, Option.some c2, Option.some d =>
              match parseJStr rest3 with
              | Option.some (s, r) =>
                Option.some (Char.ofNat (((a * 16 + b) * 16 + c2) * 16 + d) :: s, r)
              | Option.none => Option.none
            | _, _, _, _ => Option.none
          | _ => Option.none
        else
          match jsonEscape e with
          | Option.some ch =>
            match parseJStr rest2 with
            | Option.some (s, r) => Option.some (ch :: s, r)
            | Option.none => Option.none
          | Option.none => Option.none
    else if c.toNat < 32 then Option.none
    else
      match parseJStr rest with
      | Option.some (s, r) => Option.some (c :: s, r)
      | Option.none => Option.none

/-- JSON exponent part (optional); returns its literal characters. -/
def parseJExp (l : List Char) : Option (List Char × List Char) :=
  match l with
  | 'e' :: r | 'E' :: r =>
    let (sgn, r2) := match r with
      | '+' :: rr => (['+'], rr)
      | '-' :: rr => (['-'], rr)
      | _ => (([] : List Char), r)
    let ds := r2.takeWhile Char.isDigit
    if ds.isEmpty then Option.none
    else Option.some ((('e' :: sgn) ++ ds), r2.drop ds.length)
  | _ => Option.some ([], l)

/-- JSON number: integers become `PyVal.int`, anything with a fraction or
exponent becomes `PyVal.float` carrying its literal. -/
def parseJNum (l : List Char) : Option (PyVal × List Char) :=
  let (neg, l1) := match l with
    | '-' :: r => (true, r)
    | _ => (false, l)
  let ds := l1.takeWhile Char.isDigit
  if ds.isEmpty then Option.none
  else if decide (1 < ds.length) && (ds.headD '0' = '0') then Option.none
  else
    let l2 := l1.drop ds.length
    match l2 with
    | '.' :: r =>
      let fs := r.takeWhile Char.isDigit
      if fs.isEmpty then Option.none
      else
        match parseJExp (r.drop fs.length) with
        | Option.some (es, r2) =>
          Option.some
            (PyVal.float (String.mk ((if neg then ['-'] else []) ++ ds ++ ('.' :: fs) ++ es)), r2)
        | Option.none => Option.none
    | _ =>
      match parseJExp l2 with
      | Option.some ([], r2) =>
        Option.some (PyVal.int (if neg then -(Int.ofNat (digitsToNat ds)) else Int.ofNat (digitsToNat ds)), r2)
      | Option.some (es, r2) =>
        Option.some (PyVal.float (String.mk ((if neg then ['-'] else []) ++ ds ++ es)), r2)
      | Option.none => Option.none

mutual

def parseJVal : Nat → List Char → Option (PyVal × List Char)
  | 0, _ => Option.none
  | Nat.succ fuel, l =>
    match l with
    | [] => Option.none
    | c :: rest =>
      if c = lbraceChar then
        match skipWs rest with
        | c2 :: rest2 =>
          if c2 = rbraceChar then Option.some (PyVal.dict [], rest2)
          else parseJMembers fuel (c2 :: rest2) []
        | [] => Option.none
      else if c = '[' then
        match skipWs rest with
        | c2 :: rest2 =>
          if c2 = ']' then Option.some (PyVal.list [], rest2)
          else parseJItems fuel (c2 :: rest2) []
        | [] => Option.none
      else if c = dquoteChar then
        match parseJStr rest with
        | Option.some (s, r) => Option.some (PyVal.str (String.mk s), r)
        | Option.none => Option.none
      else if c = 't' then
        match rest with
        | 'r' :: 'u' :: 'e' :: r => Option.some (PyVal.bool true, r)
        | _ => Option.none
      else if c = 'f' then
        match rest with
        | 'a' :: 'l' :: 's' :: 'e' :: r => Option.some (PyVal.bool false, r)
        | _ => Option.none
      else if c = 'n' then
        match rest with
        | 'u' :: 'l' :: 'l' :: r => Option.some (PyVal.none, r)
        | _ => Option.none
      else parseJNum (c :: rest)

def parseJMembers : Nat → List Char → List (String × PyVal) → Option (PyVal × List Char)
  | 0, _, _ => Option.none
  | Nat.succ fuel, l, acc =>
    match l with
    | c :: rest =>
      if c = dquoteChar then
        match parseJStr rest with
        | Option.some (k, r1) =>
          match skipWs r1 with
          | ':' :: r2 =>
            match parseJVal fuel (skipWs r2) with
            | Option.some (v, r3) =>
              match skipWs r3 with
              | ',' :: r4 => parseJMembers fuel (skipWs r4) (dictSet acc (String.mk k) v)
              | c5 :: r5 =>
                if c5 = rbraceChar then
                  Option.some (PyVal.dict (dictSet acc (String.mk k) v), r5)
                else Option.none
              | [] => Option.none
            | Option.none => Option.none
          | _ => Option.none
        | Option.none => Option.none
      else Option.none
    | [] => Option.none

def parseJItems : Nat → List Char → List PyVal → Option (PyVal × List Char)
  | 0, _, _ => Option.none
  | Nat.succ fuel, l, acc =>
    match parseJVal fuel l with
    | Option.some (v, r1) =>
      match skipWs r1 with
      | ',' :: r2 => parseJItems fuel (skipWs r2) (acc ++ [v])
      | c3 :: r3 =>
        if c3 = ']' then Option.some (PyVal.list (acc ++ [v]), r3)
        else Option.none
      | [] => Option.none
    | Option.none => Option.none

end

/-- Model of `json.loads`: a value when the whole input parses as strict
JSON, nothing when a ValueError would be raised. -/
def jsonParse (text : String) : Option PyVal :=
  let l := skipWs text.data
  match parseJVal (l.length + 1) l with
  | Option.some (v, rest) => if skipWs rest = [] then Option.some v else Option.none
  | Option.none => Option.none

/-! ### Dirty-JSON repair (`load_dirty_json`)

Three ordered `re.sub` passes: quote conversion for `(u)?'...'` tokens
following one of the characters in `[ {,:[]`, then rewriting of standalone
` False` / ` True` tokens.  Each pass scans left to right, replacing
non-overlapping matches.  The scanners carry fuel equal to the input
length; every step consumes at least one input character, so the fuel
bound is never hit. -/

def p1StartChar (c : Char) : Bool :=
  c = ' ' || c = lbraceChar || c = ',' || c = ':' || c = '['

/-- Nonempty single-quoted content directly at the head: `'([^']+)'`. -/
def grabQuoted (l : List Char) : Option (List Char × List Char) :=
  match splitOnceChar squoteChar l with
  | Option.some (content, rest) =>
    if content.isEmpty then Option.none else Option.some (content, rest)
  | Option.none => Option.none

/-- The `(u)?'([^']+)'` part of the first pattern, directly at the head. -/
def tryQuoted (l : List Char) : Option (List Char × List Char) :=
  match l with
  | c :: rest =>
    if c = squoteChar then grabQuoted rest
    else if c = 'u' then
      match rest with
      | c2 :: rest2 => if c2 = squoteChar then grabQuoted rest2 else Option.none
      | [] => Option.none
    else Option.none
  | [] => Option.none

/-- First substitution pass: single-quoted tokens become double-quoted. -/
def dirtyPass1 (fuel : Nat) (l : List Char) : List Char :=
  match fuel with
  | 0 => l
  | Nat.succ fuel =>
    match l with
    | [] => []
    | c :: rest =>
      if p1StartChar c then
        match tryQuoted rest with
        | Option.some (content, rest2) =>
          (c :: dquoteChar :: content) ++ (dquoteChar :: dirtyPass1 fuel rest2)
        | Option.none => c :: dirtyPass1 fuel rest
      else c :: dirtyPass1 fuel rest

def listStartsWith : List Char → List Char → Bool
  | [], _ => true
  | _ :: _, [] => false
  | p :: ps, c :: cs => (p = c) && listStartsWith ps cs

def p2DelimChar (c : Char) : Bool :=
  c = ',' || c = ' ' || c = rbraceChar || c = ']'

/-- Second and third substitution passes: a literal word (` False` or
` True`) followed by a delimiter from `[, }\]]` is replaced, the match
including its delimiter being consumed. -/
def dirtyPassWord (w : List Char) (r : List Char) (fuel : Nat) (l : List Char) :
    List Char :=
  match fuel with
  | 0 => l
  | Nat.succ fuel =>
    match l with
    | [] => []
    | c :: rest =>
      if listStartsWith w (c :: rest) then
        match (c :: rest).drop w.length with
        | d :: rest2 =>
          if p2DelimChar d then r ++ (d :: dirtyPassWord w r fuel rest2)
          else c :: dirtyPassWord w r fuel rest
        | [] => c :: dirtyPassWord w r fuel rest
      else c :: dirtyPassWord w r fuel rest

/-- The regex-substitution part of `load_dirty_json`. -/
def dirtyRepair (text : String) : String :=
  let l1 := dirtyPass1 text.data.length text.data
  let l2 := dirtyPassWord (" False").data (" false").data l1.length l1
  let l3 := dirtyPassWord (" True").data (" true").data l2.length l2
  String.mk l3

/-- Source `load_dirty_json`: repair, then strict JSON parse (`Option.none`
models the ValueError it raises when the repaired text still fails). -/
def load_dirty_json (text : String) : Option PyVal :=
  jsonParse (dirtyRepair text)

/-! ### Role-person codec -/

/-- Source `_filter_rolepeople`: keep items whose `namepart` and `role` are
both truthy.  A non-dict item makes the Python comprehension raise
AttributeError, modelled as an error. -/
def filter_rolepeople : List PyVal → Except String (List PyVal)
  | [] => Except.ok []
  | item :: rest =>
    match item with
    | PyVal.dict d =>
      match filter_rolepeople rest with
      | Except.ok out =>
        if pyTruthy (pyGet d ("namepart")) && pyTruthy (pyGet d ("role")) then
          Except.ok (PyVal.dict d :: out)
        else Except.ok out
      | Except.error e => Except.error e
    | _ => Except.error ("AttributeError not a dict")

/-- Chunk loop of the labelled branch of `_parse_rolepeople_text`: each
`|`-chunk must split on `:` into exactly two pieces (tuple unpacking), the
value being stripped and assigned; the key is not stripped. -/
def rpLabelledChunks : List (List Char) → List (String × PyVal) →
    Except String (List (String × PyVal))
  | [], item => Except.ok item
  | chunk :: rest, item =>
    match splitChar ':' chunk with
    | [k, v] =>
      rpLabelledChunks rest (dictSet item (String.mk k) (PyVal.str (pyStrip (String.mk v))))
    | _ => Except.error ("ValueError not enough values to unpack")

/-- One stripped nonempty chunk of `_parse_rolepeople_text`: build the item
from one of the three item grammars, then extract a bracketed id from the
namepart and convert an all-digits id to an integer. -/
def parse_rolepeople_item (txt : String) : Except String (List (String × PyVal)) :=
  let item0 : List (String × PyVal) :=
    [(("namepart"), PyVal.none), (("role"), PyVal.str ("author"))]
  let step1 : Except String (List (String × PyVal)) :=
    if strContainsChar txt '|' && strContainsChar txt ':' then
      match rpLabelledChunks (splitChar '|' txt.data) item0 with
      | Except.ok it =>
        if pyTruthy (pyGet it ("name")) && !(pyTruthy (pyGet it ("namepart"))) then
          Except.ok (dictSet (dictRemove it ("name")) ("namepart") (pyGet it ("name")))
        else Except.ok it
      | Except.error e => Except.error e
    else if strContainsChar txt ':' then
      match splitChar ':' txt.data with
      | [n, r] =>
        Except.ok (dictSet (dictSet item0 ("namepart") (PyVal.str (pyStrip (String.mk n))))
          ("role") (PyVal.str (pyStrip (String.mk r))))
      | _ => Except.error ("ValueError not enough values to unpack")
    else Except.ok (dictSet item0 ("namepart") (PyVal.str txt))
  match step1 with
  | Except.error e => Except.error e
  | Except.ok it =>
    let it2 :=
      match (match dictGet it ("namepart") with
             | Option.some v => v
             | Option.none => PyVal.str ("")) with
      | PyVal.str s =>
        match is_text_bracketid s with
        | Option.some (term, idv) =>
          dictSet (dictSet it ("namepart") (PyVal.str (pyStrip term)))
            ("id") (PyVal.str (pyStrip idv))
        | Option.none => it
      | _ => it
    let it3 :=
      match pyGet it2 ("id") with
      | PyVal.str s =>
        if pyTruthy (PyVal.str s) && strIsDigits s then
          dictSet it2 ("id") (PyVal.int (Int.ofNat (digitsToNat s.data)))
        else it2
      | _ => it2
    Except.ok it3

/-- Source `_parse_rolepeople_text`: parse every nonempty stripped chunk. -/
def parse_rolepeople_text : List String → Except String (List (List (String × PyVal)))
  | [] => Except.ok []
  | text :: rest =>
    let txt := pyStrip text
    if txt = "" then parse_rolepeople_text rest
    else
      match parse_rolepeople_item txt with
      | Except.error e => Except.error e
      | Except.ok item =>
        match parse_rolepeople_text rest with
        | Except.error e => Except.error e
        | Except.ok items => Except.ok (item :: items)

/-- Input shape of `text_to_rolepeople`: a single string or an
already-structured list. -/
inductive RPInput : Type where
  | str : String → RPInput
  | list : List PyVal → RPInput

def is_listofdicts (l : List PyVal) : Bool :=
  l.all (fun v => match v with
    | PyVal.dict _ => true
    | _ => false)

def is_listofstrs (l : List PyVal) : Bool :=
  l.all (fun v => match v with
    | PyVal.str _ => true
    | _ => false)

def strsOf (l : List PyVal) : List String :=
  l.map (fun v => match v with
    | PyVal.str s => s
    | _ => "")

/-- Final statement of `text_to_rolepeople`: split the normalized text on
semicolons, run the item grammar, filter. -/
def rolepeople_raw (t : String) : Except String (List PyVal) :=
  match parse_rolepeople_text (pySplit t ';') with
  | Except.ok ds => filter_rolepeople (ds.map PyVal.dict)
  | Except.error e => Except.error e

/-- The JSON branch of `text_to_rolepeople`: strict parse, then dirty
repair, then an empty list standing for two ValueErrors. -/
def jsonAttempt (t : String) : PyVal :=
  match jsonParse t with
  | Option.some v => v
  | Option.none =>
    match load_dirty_json t with
    | Option.some v => v
    | Option.none => PyVal.list []

/-- Filtering the JSON result: Python iterates the parsed value, which
raises TypeError or AttributeError unless it is a list (of dicts). -/
def jsonFilter : PyVal → Except String (List PyVal)
  | PyVal.list l => filter_rolepeople l
  | _ => Except.error ("TypeError parsed JSON is not a list")

/-- Source `text_to_rolepeople`. -/
def text_to_rolepeople : RPInput → Except String (List PyVal)
  | RPInput.list l =>
    if l.isEmpty then Except.ok []
    else if is_listofdicts l then filter_rolepeople l
    else if is_listofstrs l then
      match parse_rolepeople_text (strsOf l) with
      | Except.ok ds => filter_rolepeople (ds.map PyVal.dict)
      | Except.error e => Except.error e
    else Except.error ("TypeError unsupported list shape")
  | RPInput.str s =>
    if s = "" then Except.ok []
    else if strContainsChar (normalize_string s) lbraceChar
        || strContainsChar (normalize_string s) '[' then
      if pyTruthy (jsonAttempt (normalize_string s)) then
        jsonFilter (jsonAttempt (normalize_string s))
      else rolepeople_raw (normalize_string s)
    else rolepeople_raw (normalize_string s)

/-! ### List codec -/

/-- Input shape of `text_to_list`: a string or an already-split list. -/
inductive LText : Type where
  | str : String → LText
  | list : List String → LText

/-- Source `text_to_list`: passthrough for lists; otherwise normalize,
split, strip each item, drop empties. -/
def text_to_list : LText → Char → List String
  | LText.list l, _ => l
  | LText.str s, sep =>
    if normalize_string s = "" then []
    else
      ((splitChar sep (normalize_string s).data).map (fun l => pyStrip (String.mk l))).filter
        (fun x => !(x = ""))

/-- Source `list_to_text`. -/
def list_to_text (data : List String) (separator : String) : String :=
  joinSep separator data

/-- Rendering of a delimited-list text claimed by the specification: the
items of the text itself, trimmed, with empty items dropped, joined with
a semicolon and space.  (Stated from the claim's words, for comparison
with the composition of the source functions.) -/
def spec_clean_render (t : String) : String :=
  joinSep ("; ")
    (((splitChar ';' t.data).map (fun l => pyStrip (String.mk l))).filter
      (fun x => !(x = "")))

/-! ### Datetime codec

`text_to_datetime` delegates to `dateutil.parser.parse` and
`datetime.strptime`, third-party parsers outside this module; they are
modelled as oracle parameters returning `Option` (`Option.none` models any
raised exception, which the source catches with a bare `except`).  The
returned empty string of the source is modelled by `Option.none`; the
datetime-passthrough branch for non-string input does not apply to text
input. -/

def ALT_DATETIME_FORMATS : List String :=
  [("%Y-%m-%dT%H:%M:%S:%f"),
   ("%Y-%m-%dT%H:%M:%S.%f"),
   ("%Y-%m-%d %H:%M:%S.%f"),
   ("%Y-%m-%d %H:%M:%S"),
   ("%Y-%m-%dT%H:%M:%S%Z%z"),
   ("%Y-%m-%dT%H:%M:%S%Z"),
   ("%Y-%m-%dT%H:%M:%S%z"),
   ("%Y-%m-%dT%H:%M:%S"),
   ("%Y-%m-%dT%H:%M:%S.%f%Z%z"),
   ("%Y-%m-%dT%H:%M:%S.%f%Z"),
   ("%Y-%m-%dT%H:%M:%S.%f%z")]

/-- Source `text_to_datetime` over parser oracles: normalize, try the
general parser, then the ordered legacy formats, else the empty marker. -/
def text_to_datetime {α : Type} (parse : String → Option α)
    (strptime : String → String → Option α) (text : String) : Option α :=
  if normalize_string text = "" then Option.none
  else
    match parse (normalize_string text) with
    | Option.some d => Option.some d
    | Option.none =>
      List.findSome? (fun fmt => strptime (normalize_string text) fmt) ALT_DATETIME_FORMATS

/-! ### No-labels list-of-records codec -/

/-- Record loop of `textnolabels_to_listofdicts`: each piece of the
`sep0`-split text is stripped, split once on `sep1`, and zipped against
`keys` by position; an index beyond `keys` raises IndexError.  Every
record is appended, as in the source. -/
def tnlRecords (keys : List String) (sep1 : Char) : List (List Char) →
    Except String (List SDict)
  | [] => Except.ok []
  | n :: rest =>
    let values := pySplit1 (pyStrip (String.mk n)) sep1
    if values.length ≤ keys.length then
      match tnlRecords keys sep1 rest with
      | Except.ok ds =>
        Except.ok (dictFromPairs ((keys.take values.length).zip (values.map pyStrip)) :: ds)
      | Except.error e => Except.error e
    else Except.error ("IndexError list index out of range")

/-- Source `textnolabels_to_listofdicts` with
`separators=[sep0, sep1]` (the module default is `[:, ;]`): note that the
source splits the whole text on `separators[0]` and each piece once on
`separators[1]`. -/
def textnolabels_to_listofdicts (text : String) (keys : List String)
    (sep0 sep1 : Char) : Except String (List SDict) :=
  if normalize_string text = "" then Except.ok []
  else tnlRecords keys sep1 (splitChar sep0 (normalize_string text).data)

/-! ### Theorems on the claims -/

/-- C1: for every input whose normalized form is non-empty, `text_to_dict`
evaluates the grammar heuristics in the fixed order bracket-id, labelled,
no-labels, returns the matching grammar's result with every value stripped,
and raises an unparseable-text error when none of the heuristics matches —
it never falls back to returning the raw text. -/
theorem c1_text_to_dict_dispatch (text : String) (keys : List String)
    (h : newlineToSpace (normalize_string text) ≠ "") :
    (∀ m, is_text_bracketid (newlineToSpace (normalize_string text)) = Option.some m →
      text_to_dict text keys =
        Except.ok (stripVals (textbracketid_to_dict (newlineToSpace (normalize_string text))
          [("term"), ("id")] (Option.some m))))
    ∧ (is_text_bracketid (newlineToSpace (normalize_string text)) = Option.none →
       is_text_labels (newlineToSpace (normalize_string text)) ':' '|' = true →
      text_to_dict text keys =
        Except.map stripVals (textlabels_to_dict (newlineToSpace (normalize_string text)) keys ':' '|'))
    ∧ (is_text_bracketid (newlineToSpace (normalize_string text)) = Option.none →
       is_text_labels (newlineToSpace (normalize_string text)) ':' '|' = false →
       is_text_nolabels (newlineToSpace (normalize_string text)) ':' '|' = true →
      text_to_dict text keys =
        Except.map stripVals (textnolabels_to_dict (newlineToSpace (normalize_string text)) keys ':'))
    ∧ (is_text_bracketid (newlineToSpace (normalize_string text)) = Option.none →
       is_text_labels (newlineToSpace (normalize_string text)) ':' '|' = false →
       is_text_nolabels (newlineToSpace (normalize_string text)) ':' '|' = false →
      ∃ e, text_to_dict text keys = Except.error e) := by
  refine ⟨?_, ?_, ?_, ?_⟩
  · intro m hm
    show text_to_dict_n (newlineToSpace (normalize_string text)) keys = _
    simp [text_to_dict_n, h, hm]
    rfl
  · intro hb hl
    show text_to_dict_n (newlineToSpace (normalize_string text)) keys = _
    simp [text_to_dict_n, h, hb, hl]
  · intro hb hl hn
    show text_to_dict_n (newlineToSpace (normalize_string text)) keys = _
    simp [text_to_dict_n, h, hb, hl, hn]
  · intro hb hl hn
    refine ⟨("Exception text_to_dict could not parse text"), ?_⟩
    show text_to_dict_n (newlineToSpace (normalize_string text)) keys = _
    simp [text_to_dict_n, h, hb, hl, hn]
    rfl

/-- C1 witness: the dispatcher at a concrete bracket-id input. -/
theorem c1_dispatch_witness :
    text_to_dict ("ABC [123]") [("x")] = Except.ok [(("term"), ("ABC")), (("id"), ("123"))] :=
  ((c1_text_to_dict_dispatch ("ABC [123]") [("x")] (by decide)).1
    ((("ABC"), ("123"))) (by rfl)).trans rfl

/-- C2: role-person decoding of the canonical two-person example, the
bracketed id being stripped from the namepart and converted to an
integer. -/
theorem c2_rolepeople_example :
    text_to_rolepeople (RPInput.str ("Watanabe, Joe:author; Masuda, Kikuye [42]:narrator")) =
      Except.ok
        [PyVal.dict [(("namepart"), PyVal.str ("Watanabe, Joe")), (("role"), PyVal.str ("author"))],
         PyVal.dict [(("namepart"), PyVal.str ("Masuda, Kikuye")), (("role"), PyVal.str ("narrator")),
           (("id"), PyVal.int 42)]] := by
  rfl

/-- C3 counterexample: an input containing a curly brace on which both the
strict and the repaired JSON parse fail, yet `text_to_rolepeople` returns a
non-empty result (the raw-text item grammar), contradicting the claim that
such input yields an empty result list. -/
theorem c3_counterexample_not_empty :
    text_to_rolepeople (RPInput.str ("\x7bWatanabe")) =
      Except.ok [PyVal.dict [(("namepart"), PyVal.str ("\x7bWatanabe")), (("role"), PyVal.str ("author"))]]
    ∧ jsonParse (normalize_string ("\x7bWatanabe")) = Option.none
    ∧ load_dirty_json (normalize_string ("\x7bWatanabe")) = Option.none
    ∧ text_to_rolepeople (RPInput.str ("\x7bWatanabe")) ≠ Except.ok ([] : List PyVal) := by
  refine ⟨rfl, rfl, rfl, ?_⟩
  intro hx
  rw [show text_to_rolepeople (RPInput.str ("\x7bWatanabe")) =
      Except.ok [PyVal.dict [(("namepart"), PyVal.str ("\x7bWatanabe")), (("role"), PyVal.str ("author"))]]
      from rfl] at hx
  exact List.cons_ne_nil _ _ (Except.ok.inj hx)

/-- C3 amended: when a JSON-looking string fails both the strict and the
dirty-JSON parse, no parse error propagates and the function does not stop
with an empty result; it falls through to the raw semicolon-delimited item
grammar. -/
theorem c3_json_failure_falls_through (s : String)
    (h0 : s ≠ "")
    (h1 : (strContainsChar (normalize_string s) lbraceChar
            || strContainsChar (normalize_string s) '[') = true)
    (h2 : jsonParse (normalize_string s) = Option.none)
    (h3 : load_dirty_json (normalize_string s) = Option.none) :
    text_to_rolepeople (RPInput.str s) = rolepeople_raw (normalize_string s) := by
  simp [text_to_rolepeople, h0, h1, jsonAttempt, h2, h3, pyTruthy]

/-- C3 witness: the amended fall-through at the concrete counterexample
input. -/
theorem c3_falls_through_witness :
    text_to_rolepeople (RPInput.str ("\x7bWatanabe")) = rolepeople_raw (normalize_string ("\x7bWatanabe")) :=
  c3_json_failure_falls_through ("\x7bWatanabe") (by decide) (by rfl) (by rfl) (by rfl)

/-- C4: `textnolabels_to_listofdicts` on the documented example splits the
text on the colon first and each piece once on the semicolon (the reverse
of the documented record-then-field order), so the output is five malformed
records instead of the two documented ones. -/
theorem c4_textnolabels_listofdicts_swapped :
    textnolabels_to_listofdicts ("ABC:http://abc.org;DEF:http://def.org") [("label"), ("url")] ':' ';'
      = Except.ok
        [[(("label"), ("ABC"))],
         [(("label"), ("http"))],
         [(("label"), ("//abc.org")), (("url"), ("DEF"))],
         [(("label"), ("http"))],
         [(("label"), ("//def.org"))]]
    ∧ ([[(("label"), ("ABC"))],
        [(("label"), ("http"))],
        [(("label"), ("//abc.org")), (("url"), ("DEF"))],
        [(("label"), ("http"))],
        [(("label"), ("//def.org"))]] : List SDict) ≠
       [[(("label"), ("ABC")), (("url"), ("http://abc.org"))],
        [(("label"), ("DEF")), (("url"), ("http://def.org"))]] := by
  exact ⟨rfl, by decide⟩

/-- C5: the bracket-id grammar round-trips on the canonical example, the id
staying textual on decode. -/
theorem c5_bracketid_roundtrip :
    textbracketid_to_dict ("ABC [123]") [("term"), ("id")] Option.none
      = [(("term"), ("ABC")), (("id"), ("123"))]
    ∧ dict_to_textbracketid (DData.dict [(("term"), ("ABC")), (("id"), ("123"))]) [("term"), ("id")]
      = Except.ok ("ABC [123]") := by
  exact ⟨rfl, rfl⟩

/-- C6 counterexample: on text with an interior carriage return the round
trip normalizes the CR to LF, so it differs from the trimmed,
empty-item-free join of the items of the original text. -/
theorem c6_cr_counterexample :
    list_to_text (text_to_list (LText.str ("a\rb")) ';') ("; ") = ("a\nb")
    ∧ spec_clean_render ("a\rb") = ("a\rb")
    ∧ ("a\nb" : String) ≠ ("a\rb") := by
  exact ⟨rfl, rfl, by decide⟩

/-- C6 amended: for every non-empty text the round trip equals the trimmed,
empty-item-free, semicolon-space join of the items of the NORMALIZED text
(CR and CRLF collapsed to LF, outer whitespace stripped); decoding the
empty string gives the empty sequence and encoding the empty sequence gives
the empty string. -/
theorem c6_list_roundtrip_amended :
    (∀ t : String, t ≠ "" →
      list_to_text (text_to_list (LText.str t) ';') ("; ") = spec_clean_render (normalize_string t))
    ∧ text_to_list (LText.str ("")) ';' = []
    ∧ list_to_text [] ("; ") = "" := by
  refine ⟨?_, rfl, rfl⟩
  intro t _
  by_cases h : normalize_string t = ""
  · simp [text_to_list, list_to_text, spec_clean_render, h, joinSep]
  · simp [text_to_list, list_to_text, spec_clean_render, h]

/-- C6 witness: the amended round trip at a concrete dirty input. -/
theorem c6_roundtrip_witness :
    list_to_text (text_to_list (LText.str ("a; ;b")) ';') ("; ")
      = spec_clean_render (normalize_string ("a; ;b")) :=
  c6_list_roundtrip_amended.1 ("a; ;b") (by decide)

/-- C7: `text_to_datetime` never raises: empty normalized input yields the
empty marker, failure of the general parser and of every legacy format
yields the empty marker, and otherwise the first successful parse is
returned (the general parser first, then the ordered legacy formats). -/
theorem c7_datetime_soft_failure {α : Type} (parse : String → Option α)
    (strptime : String → String → Option α) (text : String) :
    (normalize_string text = "" → text_to_datetime parse strptime text = Option.none)
    ∧ (normalize_string text ≠ "" → parse (normalize_string text) = Option.none →
        text_to_datetime parse strptime text =
          List.findSome? (fun fmt => strptime (normalize_string text) fmt) ALT_DATETIME_FORMATS)
    ∧ (normalize_string text ≠ "" → parse (normalize_string text) = Option.none →
        (∀ fmt ∈ ALT_DATETIME_FORMATS, strptime (normalize_string text) fmt = Option.none) →
        text_to_datetime parse strptime text = Option.none)
    ∧ (∀ d : α, normalize_string text ≠ "" → parse (normalize_string text) = Option.some d →
        text_to_datetime parse strptime text = Option.some d) := by
  refine ⟨?_, ?_, ?_, ?_⟩
  · intro h
    simp [text_to_datetime, h]
  · intro h hp
    simp [text_to_datetime, h, hp]
  · intro h hp hall
    simp [text_to_datetime, h, hp]
    exact hall
  · intro d h hp
    simp [text_to_datetime, h, hp]

/-- C7 witness: concrete oracles that always fail give the empty marker. -/
theorem c7_datetime_witness :
    text_to_datetime (fun _ => (Option.none : Option Nat)) (fun _ _ => Option.none) ("1970")
      = Option.none :=
  (c7_datetime_soft_failure (fun _ => (Option.none : Option Nat)) (fun _ _ => Option.none)
    ("1970")).2.2.1 (by decide) rfl (fun _ _ => rfl)

/-- C8: for non-empty text containing the separator, `textnolabels_to_dict`
splits once on it and raises exactly when the value count differs from the
key count, mapping keys to values positionally on success. -/
theorem c8_textnolabels_value_count (text : String) (keys : List String)
    (h1 : text ≠ "") (h2 : strContainsChar text ':' = true) :
    ((pySplit1 text ':').length = keys.length →
      textnolabels_to_dict text keys ':' = Except.ok (dictFromPairs (keys.zip (pySplit1 text ':'))))
    ∧ ((pySplit1 text ':').length ≠ keys.length →
      ∃ e, textnolabels_to_dict text keys ':' = Except.error e) := by
  constructor
  · intro h3
    simp [textnolabels_to_dict, h1, h2, h3]
  · intro h3
    exact ⟨("Exception text contains more values than keys"), by simp [textnolabels_to_dict, h1, h2, h3]⟩

/-- C8 witness: the positional mapping at a concrete two-key input. -/
theorem c8_textnolabels_witness :
    textnolabels_to_dict ("a:b") [("x"), ("y")] ':' = Except.ok [(("x"), ("a")), (("y"), ("b"))] :=
  ((c8_textnolabels_value_count ("a:b") [("x"), ("y")] (by decide) (by decide)).1 (by decide)).trans rfl

/-- C9: a JSON parse that succeeds with a falsy (empty) value is not
returned: the function falls through to the raw semicolon-delimited item
grammar, so decoding the two-character bracket string yields one default
record rather than the empty list. -/
theorem c9_empty_json_falls_through :
    (∀ (s : String) (v : PyVal), s ≠ "" →
      (strContainsChar (normalize_string s) lbraceChar
        || strContainsChar (normalize_string s) '[') = true →
      jsonParse (normalize_string s) = Option.some v →
      pyTruthy v = false →
      text_to_rolepeople (RPInput.str s) = rolepeople_raw (normalize_string s))
    ∧ text_to_rolepeople (RPInput.str ("[]")) =
        Except.ok [PyVal.dict [(("namepart"), PyVal.str ("[]")), (("role"), PyVal.str ("author"))]] := by
  constructor
  · intro s v h0 h1 h2 h3
    simp [text_to_rolepeople, h0, h1, jsonAttempt, h2, h3]
  · rfl

/-- C9 witness: the fall-through at the concrete empty-array input. -/
theorem c9_witness :
    text_to_rolepeople (RPInput.str ("[]")) = rolepeople_raw (normalize_string ("[]")) :=
  c9_empty_json_falls_through.1 ("[]") (PyVal.list []) (by decide) (by rfl) (by rfl) (by rfl)

/-- C10: a style outside the three known ones falls off the end of the
dispatch and silently yields the null value, not an error and not text. -/
theorem c10_unknown_style_returns_none (data : SDict) (keys : List String) (style : String)
    (nolabelsep sep0 sep1 : String)
    (h1 : style ≠ "bracketid") (h2 : style ≠ "nolabels") (h3 : style ≠ "labels") :
    dict_to_text data keys style nolabelsep sep0 sep1 = Except.ok Option.none := by
  simp [dict_to_text, h1, h2, h3]

/-- C10 witness: a concrete unknown style. -/
theorem c10_unknown_style_witness :
    dict_to_text [] [] ("json") (":") (":") ("|") = Except.ok Option.none :=
  c10_unknown_style_returns_none [] [] ("json") (":") (":") ("|")
    (by decide) (by decide) (by decide)
